import Mathlib

/-!
Shallow embedding of `src/lib/pegasus/python/Pegasus/DAX4/TransformationCatalog.py`.

Python dictionaries are modelled as insertion-ordered association lists
(Python 3.7+ preserves insertion order), exceptions as `Except`, and the
JSON-like documents built by the `__json__` methods as the inductive `JValue`.
A mutating method call is modelled by `Call`: the state of the object after
the call (mutations performed before a raise are kept, matching Python
exception semantics) together with either the raised exception or the value
the method returns (`self` or `None`).

The helpers `filter_out_nones` (from the absent `Encoding.py`) and
`add_profile` (from the absent `Mixins.py`) are modelled from the spec, as
noted in their doc comments. `Architecture` (from `SiteCatalog.py`) is
consumed as an opaque validated value, per the spec; an argument position
where the code performs an `isinstance` check is modelled by a small sum type
distinguishing a genuine enum member from any other Python value.
-/

namespace Pegasus.DAX4

/-- JSON-like documents produced by the `__json__` methods. An object keeps
its fields in insertion order, as Python dicts do. -/
inductive JValue where
  | str (s : String)
  | arr (elts : List JValue)
  | obj (fields : List (String × JValue))

/-- The exceptions this module can raise. `duplicateError` and
`notFoundError` embed the classes imported from `Errors.py`;
`valueError` and `attributeError` embed the Python builtins. -/
inductive PyError where
  | duplicateError (msg : String)
  | notFoundError (msg : String)
  | valueError (msg : String)
  | attributeError (msg : String)

/-- `PEGASUS_VERSION = "5.0"` -/
def PEGASUS_VERSION : String := "5.0"

/-! ### Python dict as an insertion-ordered association list -/

/-- `d[k] = v`: replace in place if the key is present, else append. -/
def dictSet {κ α : Type} [DecidableEq κ] : List (κ × α) → κ → α → List (κ × α)
  | [], k, v => [(k, v)]
  | (k₁, v₁) :: rest, k, v =>
      if k₁ = k then (k, v) :: rest else (k₁, v₁) :: dictSet rest k v

/-- `d.get(k)` / `d[k]` lookup. -/
def dictGet {κ α : Type} [DecidableEq κ] : List (κ × α) → κ → Option α
  | [], _ => none
  | (k₁, v₁) :: rest, k => if k₁ = k then some v₁ else dictGet rest k

/-- `k in d`. -/
def dictHas {κ α : Type} [DecidableEq κ] (d : List (κ × α)) (k : κ) : Bool :=
  (dictGet d k).isSome

/-- `del d[k]` (removes the first binding; keys are unique by construction). -/
def dictDel {κ α : Type} [DecidableEq κ] : List (κ × α) → κ → List (κ × α)
  | [], _ => []
  | (k₁, v₁) :: rest, k => if k₁ = k then rest else (k₁, v₁) :: dictDel rest k

/-! ### Method-call results -/

/-- What a method call returns when it does not raise: the (possibly
mutated) object itself, or Python `None`. -/
inductive PyRet (α : Type) where
  | obj (a : α)
  | pyNone

/-- Outcome of calling a mutating method: the state of the receiver after
the call, and either the raised exception or the returned value. -/
structure Call (α : Type) where
  state : α
  result : Except PyError (PyRet α)

/-! ### Enums -/

/-- `class TransformationType(Enum)` -/
inductive TransformationType where
  | STAGEABLE
  | INSTALLED
deriving DecidableEq

/-- The `.value` of a `TransformationType` member. -/
def TransformationType.value : TransformationType → String
  | .STAGEABLE => "stageable"
  | .INSTALLED => "installed"

/-- `class ContainerType(Enum)` -/
inductive ContainerType where
  | DOCKER
  | SINGULARITY
  | SHIFTER
deriving DecidableEq

/-- The `.value` of a `ContainerType` member. -/
def ContainerType.value : ContainerType → String
  | .DOCKER => "docker"
  | .SINGULARITY => "singularity"
  | .SHIFTER => "shifter"

/-- A Python value passed where the code checks
`isinstance(x, TransformationType)`: a genuine enum member, or any other
value (for which the isinstance check fails). -/
inductive TTypeArg where
  | valid (t : TransformationType)
  | invalid

/-- A Python value passed where the code checks `isinstance(x, Architecture)`.
`Architecture` lives in `SiteCatalog.py`, out of scope per the spec; a valid
member is represented by its opaque `.value` string. -/
inductive ArchArg where
  | valid (value : String)
  | invalid

/-- A Python value passed where the code checks `isinstance(x, ContainerType)`. -/
inductive CTypeArg where
  | valid (c : ContainerType)
  | invalid

/-! ### Profiles -/

/-- `self.profiles = defaultdict(dict)`: namespace → key → value. -/
abbrev Profiles := List (String × List (String × JValue))

/-- Modelled from the spec: `ProfileMixin.add_profile` lives in the absent
`Mixins.py`. §4.1: "add a profile under (namespace, key) → value; overwrite
semantics on repeat key (last write wins, no duplicate error)". The
`defaultdict(dict)` creates the namespace mapping on first use. -/
def add_profile (p : Profiles) (ns key : String) (value : JValue) : Profiles :=
  dictSet p ns (dictSet ((dictGet p ns).getD []) key value)

/-- `dict(self.profiles)` as a JSON object of objects. -/
def profilesJson (p : Profiles) : JValue :=
  .obj (p.map fun nsm => (nsm.1, JValue.obj nsm.2))

/-- Modelled from the spec: `filter_out_nones` lives in the absent
`Encoding.py`. §4.2/§6: "Serialization emits only non-null fields (absent
optionals are omitted, not null)" — entries whose value is `None` are
dropped, the rest keep their order. -/
def filter_out_nones (fields : List (String × Option JValue)) : List (String × JValue) :=
  fields.filterMap fun kv => kv.2.map fun v => (kv.1, v)

/-- Lift an optional string field to an optional JSON value. -/
def optStr (s : Option String) : Option JValue :=
  s.map JValue.str

/-! ### TransformationSite -/

/-- State of a `TransformationSite` object. `transformation_type` and the
`arch` value are stored as the enum member `.value` strings, as in
`__init__`. `arch = none` means the attribute was NEVER ASSIGNED: the
constructor only executes `self.arch = arch.value` when the `arch` argument
is not `None`, so the attribute is missing otherwise. -/
structure TransformationSite where
  name : String
  pfn : String
  transformation_type : String
  arch : Option String
  os_type : Option String
  os_release : Option String
  os_version : Option String
  glibc : Option String
  container : Option String
  profiles : Profiles

/-- `TransformationSite.__init__`. Raises `ValueError` on the two
`isinstance` checks; otherwise stores the fields. -/
def TransformationSite.init (name pfn : String) (transformation_type : TTypeArg)
    (arch : Option ArchArg) (os_type os_release os_version glibc container : Option String) :
    Except PyError TransformationSite :=
  match transformation_type with
  | .invalid => .error (.valueError "type must be one of TransformationType")
  | .valid tt =>
    match arch with
    | some .invalid => .error (.valueError "arch must be one of Arch")
    | some (.valid a) =>
        .ok ⟨name, pfn, tt.value, some a, os_type, os_release, os_version, glibc, container, []⟩
    | none =>
        .ok ⟨name, pfn, tt.value, none, os_type, os_release, os_version, glibc, container, []⟩

/-- `TransformationSite.__json__`. The dict literal evaluates `self.arch`;
when the constructor was given `arch=None` that attribute was never
assigned, so Python raises `AttributeError` before `filter_out_nones` ever
runs (message modelled without the quote marks Python prints). -/
def TransformationSite.json (s : TransformationSite) : Except PyError JValue :=
  match s.arch with
  | none => .error (.attributeError "TransformationSite object has no attribute arch")
  | some a =>
      .ok (.obj (filter_out_nones
        [("name", some (.str s.name)),
         ("pfn", some (.str s.pfn)),
         ("type", some (.str s.transformation_type)),
         ("arch", some (.str a)),
         ("os.type", optStr s.os_type),
         ("os.release", optStr s.os_release),
         ("os.version", optStr s.os_version),
         ("glibc", optStr s.glibc),
         ("container", optStr s.container),
         ("profiles", if s.profiles.length > 0 then some (profilesJson s.profiles) else none)]))

/-! ### Container -/

/-- State of a `Container` object; `container_type` stored as `.value`. -/
structure Container where
  name : String
  container_type : String
  image : String
  mount : String
  image_site : Option String
  profiles : Profiles

/-- `Container.__init__`. -/
def Container.init (name : String) (container_type : CTypeArg) (image mount : String)
    (image_site : Option String) : Except PyError Container :=
  match container_type with
  | .invalid => .error (.valueError "container_type must be one of ContainerType")
  | .valid ct => .ok ⟨name, ct.value, image, mount, image_site, []⟩

/-- `Container.__json__`. -/
def Container.json (c : Container) : JValue :=
  .obj (filter_out_nones
    [("name", some (.str c.name)),
     ("type", some (.str c.container_type)),
     ("image", some (.str c.image)),
     ("mount", some (.str c.mount)),
     ("imageSite", optStr c.image_site),
     ("profiles", if c.profiles.length > 0 then some (profilesJson c.profiles) else none)])

/-! ### Transformation -/

/-- The identity key `(self.name, self.namespace, self.version)`. -/
abbrev TKey := String × Option String × Option String

/-- State of a `Transformation` object. Recursive because `self.requires`
is a set of `Transformation` objects. The set is modelled as a list in
insertion order (CPython set iteration order is unspecified; no claim here
depends on it). `hooks` is only ever the empty dict in this module; its
values are opaque JSON. -/
inductive Transformation where
  | mk (name : String) («namespace» : Option String) (version : Option String)
       (sites : List (String × TransformationSite))
       (requires : List Transformation)
       (profiles : Profiles)
       (hooks : List (String × JValue))

def Transformation.name : Transformation → String
  | .mk n _ _ _ _ _ _ => n

def Transformation.«namespace» : Transformation → Option String
  | .mk _ ns _ _ _ _ _ => ns

def Transformation.version : Transformation → Option String
  | .mk _ _ v _ _ _ _ => v

def Transformation.sites : Transformation → List (String × TransformationSite)
  | .mk _ _ _ s _ _ _ => s

def Transformation.requires : Transformation → List Transformation
  | .mk _ _ _ _ r _ _ => r

def Transformation.profiles : Transformation → Profiles
  | .mk _ _ _ _ _ p _ => p

def Transformation.hooks : Transformation → List (String × JValue)
  | .mk _ _ _ _ _ _ h => h

/-- `self.key = (self.name, self.namespace, self.version)`. -/
def Transformation.key (t : Transformation) : TKey :=
  (t.name, t.«namespace», t.version)

/-- `Transformation.__init__(name, namespace=None, version=None)`:
sites, requires, profiles and hooks all start empty. -/
def Transformation.init (name : String) (ns version : Option String) : Transformation :=
  .mk name ns version [] [] [] []

/-- Replace the `sites` mapping, keeping every other attribute. -/
def Transformation.setSites : Transformation → List (String × TransformationSite) → Transformation
  | .mk n ns v _ r p h, s => .mk n ns v s r p h

/-- Replace the `requires` set, keeping every other attribute. -/
def Transformation.setRequires : Transformation → List Transformation → Transformation
  | .mk n ns v s _ p h, r => .mk n ns v s r p h

/-- `Transformation.__str__`; Python renders `None` as the string `None`. -/
def Transformation.str (t : Transformation) : String :=
  "<Transformation " ++ (t.«namespace»).getD "None" ++ "::" ++ t.name ++ ":"
    ++ (t.version).getD "None" ++ ">"

/-- A Python value passed to `==` or to `add_transformations`: a
`Transformation` object, or any other value (tagged arbitrarily). -/
inductive PyVal where
  | transformation (t : Transformation)
  | nonTransformation (tag : String)

/-- What evaluating `a == b` yields: `__eq__` either returns a `bool` or —
in this module, for a non-`Transformation` right operand — returns a
`ValueError` OBJECT (it does not raise it). -/
inductive EqResult where
  | bool (b : Bool)
  | valueErrorObject (msg : String)

/-- `Transformation.__eq__`: key comparison for `Transformation` operands,
otherwise `return ValueError(...)` — the error object is the result. -/
def Transformation.eq (t : Transformation) (other : PyVal) : EqResult :=
  match other with
  | .transformation o => .bool (t.key == o.key)
  | .nonTransformation _ => .valueErrorObject "must compare with type Transformation"

/-- `Transformation.__hash__` is `hash(self.key)`: a function of the key
alone (the concrete hash combinator stands in for CPython tuple hashing). -/
def Transformation.hashVal (t : Transformation) : UInt64 :=
  hash t.key

/-- `Transformation.add_site`: duplicate-name check, then the two
`isinstance` checks, then construction and storage of the site. The
`TransformationSite` constructor is invoked as in the source; its own
re-validation cannot fail after the checks above. -/
def Transformation.add_site (t : Transformation) (name pfn : String)
    (transformation_type : TTypeArg) (arch : Option ArchArg)
    (ostype osrelease osversion glibc container : Option String) : Call Transformation :=
  if dictHas t.sites name then
    ⟨t, .error (.duplicateError
      ("Site " ++ name ++ " already exists for transformation " ++ t.name))⟩
  else
    match transformation_type with
    | .invalid => ⟨t, .error (.valueError "type must be one of TransformationType")⟩
    | .valid tt =>
      match arch with
      | some .invalid => ⟨t, .error (.valueError "arch must be one of Arch")⟩
      | _ =>
        match TransformationSite.init name pfn (.valid tt) arch
            ostype osrelease osversion glibc container with
        | .error e => ⟨t, .error e⟩
        | .ok site =>
            let t₁ := t.setSites (dictSet t.sites name site)
            ⟨t₁, .ok (.obj t₁)⟩

/-- `Transformation.get_site`. -/
def Transformation.get_site (t : Transformation) (name : String) :
    Except PyError TransformationSite :=
  match dictGet t.sites name with
  | none => .error (.notFoundError
      ("Site " ++ name ++ " not found for transformation " ++ t.name))
  | some s => .ok s

/-- `Transformation.has_site`. -/
def Transformation.has_site (t : Transformation) (name : String) : Bool :=
  dictHas t.sites name

/-- `Transformation.remove_site`. -/
def Transformation.remove_site (t : Transformation) (name : String) : Call Transformation :=
  if !dictHas t.sites name then
    ⟨t, .error (.notFoundError
      ("Site " ++ name ++ " not found for transformation " ++ t.name))⟩
  else
    let t₁ := t.setSites (dictDel t.sites name)
    ⟨t₁, .ok (.obj t₁)⟩

/-- `Transformation.add_site_profile`: `NotFoundError` for an unknown site,
else delegates to the profile capability of that site. -/
def Transformation.add_site_profile (t : Transformation) (site_name ns key : String)
    (value : JValue) : Call Transformation :=
  match dictGet t.sites site_name with
  | none =>
      ⟨t, .error (.notFoundError
        ("Site " ++ site_name ++ " not found for transformation " ++ t.name))⟩
  | some site =>
      let site₁ := { site with profiles := add_profile site.profiles ns key value }
      let t₁ := t.setSites (dictSet t.sites site_name site₁)
      ⟨t₁, .ok (.obj t₁)⟩

/-- `Transformation.has_requirement`: Python set membership, which hashes
and compares by the identity key. -/
def Transformation.has_requirement (t : Transformation) (x : Transformation) : Bool :=
  t.requires.any fun r => r.key == x.key

/-- `Transformation.add_requirement`. -/
def Transformation.add_requirement (t : Transformation) (req : Transformation) :
    Call Transformation :=
  if t.requires.any (fun r => r.key == req.key) then
    ⟨t, .error (.duplicateError
      ("Transformation " ++ t.name ++ " already requires " ++ req.name))⟩
  else
    let t₁ := t.setRequires (t.requires ++ [req])
    ⟨t₁, .ok (.obj t₁)⟩

/-- Remove the (unique) element with the given key: `set.remove`. -/
def removeByKey : List Transformation → TKey → List Transformation
  | [], _ => []
  | r :: rest, k => if r.key == k then rest else r :: removeByKey rest k

/-- `Transformation.remove_requirement`. -/
def Transformation.remove_requirement (t : Transformation) (x : Transformation) :
    Call Transformation :=
  if !t.has_requirement x then
    ⟨t, .error (.notFoundError
      ("Transformation " ++ t.name ++ " does not have requirement " ++ x.str))⟩
  else
    let t₁ := t.setRequires (removeByKey t.requires x.key)
    ⟨t₁, .ok (.obj t₁)⟩

/-- `Transformation.__json__`. The `sites` list comprehension runs
`__json__` on each site, so an `AttributeError` raised there propagates. -/
def Transformation.json (t : Transformation) : Except PyError JValue := do
  let siteJsons ← (t.sites.map Prod.snd).mapM TransformationSite.json
  return .obj (filter_out_nones
    [("namespace", optStr t.«namespace»),
     ("name", some (.str t.name)),
     ("version", optStr t.version),
     ("requires", if t.requires.length > 0
        then some (.arr (t.requires.map fun r => .str r.name)) else none),
     ("sites", some (.arr siteJsons)),
     ("profiles", if t.profiles.length > 0 then some (profilesJson t.profiles) else none),
     ("hooks", if t.hooks.length > 0 then some (.obj t.hooks) else none)])

/-! ### TransformationCatalog -/

/-- State of a `TransformationCatalog`. -/
structure TransformationCatalog where
  default_filepath : String
  transformations : List (TKey × Transformation)
  containers : List (String × Container)

/-- `TransformationCatalog.__init__` (default argument `"TransformationCatalog"`). -/
def TransformationCatalog.init (default_filepath : String) : TransformationCatalog :=
  ⟨default_filepath, [], []⟩

/-- `TransformationCatalog.has_transformation`. -/
def TransformationCatalog.has_transformation (cat : TransformationCatalog)
    (t : Transformation) : Bool :=
  dictHas cat.transformations t.key

/-- `TransformationCatalog.add_transformations(*transformations)`: one pass
over the arguments; each is type-checked, checked for a duplicate key, then
inserted. A raise stops the loop but keeps earlier insertions; the method
returns `None` on success. -/
def TransformationCatalog.add_transformations (cat : TransformationCatalog) :
    List PyVal → Call TransformationCatalog
  | [] => ⟨cat, .ok .pyNone⟩
  | a :: rest =>
    match a with
    | .nonTransformation _ =>
        ⟨cat, .error (.valueError "input must be of type Transformation")⟩
    | .transformation tr =>
        if cat.has_transformation tr then
          ⟨cat, .error (.duplicateError "transformation already exists in catalog")⟩
        else
          TransformationCatalog.add_transformations
            { cat with transformations := dictSet cat.transformations tr.key tr } rest

/-- `TransformationCatalog.has_container`. -/
def TransformationCatalog.has_container (cat : TransformationCatalog) (name : String) : Bool :=
  dictHas cat.containers name

/-- `TransformationCatalog.add_container`: duplicate-name check, enum
check, then construction and storage (the `Container` constructor re-checks
the enum; that cannot fail here). -/
def TransformationCatalog.add_container (cat : TransformationCatalog) (name : String)
    (container_type : CTypeArg) (image mount : String) (image_site : Option String) :
    Call TransformationCatalog :=
  if cat.has_container name then
    ⟨cat, .error (.duplicateError ("Container " ++ name ++ " already exists"))⟩
  else
    match container_type with
    | .invalid => ⟨cat, .error (.valueError "container_type must be one of ContainerType")⟩
    | .valid ct =>
      match Container.init name (.valid ct) image mount image_site with
      | .error e => ⟨cat, .error e⟩
      | .ok c =>
          let cat₁ := { cat with containers := dictSet cat.containers name c }
          ⟨cat₁, .ok (.obj cat₁)⟩

/-- `TransformationCatalog.get_container`. -/
def TransformationCatalog.get_container (cat : TransformationCatalog) (name : String) :
    Except PyError Container :=
  match dictGet cat.containers name with
  | none => .error (.notFoundError ("Container " ++ name ++ " does not exist in this catalog"))
  | some c => .ok c

/-- `TransformationCatalog.remove_container`. -/
def TransformationCatalog.remove_container (cat : TransformationCatalog) (name : String) :
    Call TransformationCatalog :=
  if !cat.has_container name then
    ⟨cat, .error (.notFoundError ("Container " ++ name ++ " does not exist in this catalog"))⟩
  else
    let cat₁ := { cat with containers := dictDel cat.containers name }
    ⟨cat₁, .ok (.obj cat₁)⟩

/-- The `containers` list comprehension of `TransformationCatalog.__json__`:
`[c.__json__() for key, c in self.containers]` iterates the dict KEYS
(strings, because `.items()` is missing). A two-character key unpacks into
two one-character strings and `c.__json__()` then raises `AttributeError`
(`str` has no `__json__` attribute); a key of any other length already
fails tuple unpacking with a `ValueError`. Every iteration therefore
raises, so the comprehension raises at its first element. -/
def containersCompr (containers : List (String × Container)) : Except PyError (List JValue) :=
  containers.mapM fun kc =>
    if kc.1.length = 2 then
      .error (.attributeError "str object has no attribute json")
    else
      .error (.valueError "values to unpack")

/-- `TransformationCatalog.__json__`: the dict literal evaluates the
`transformations` comprehension first, then the `containers` expression. -/
def TransformationCatalog.json (cat : TransformationCatalog) : Except PyError JValue := do
  let trs ← cat.transformations.mapM fun kt => kt.2.json
  let cs ← if cat.containers.length > 0
    then do
      let vals ← containersCompr cat.containers
      pure (some (JValue.arr vals))
    else pure none
  return .obj (filter_out_nones
    [("pegasus", some (.str PEGASUS_VERSION)),
     ("transformations", some (.arr trs)),
     ("containers", cs)])

/-! ### Concrete objects used by the tests below -/

/-- The transformation of the round-trip scenario: name "t", no namespace or
version, one site "local" with type STAGEABLE and pfn "/bin/t", no arch or
other optionals. -/
def exampleTransformation : Transformation :=
  ((Transformation.init "t" none none).add_site "local" "/bin/t"
    (.valid .STAGEABLE) none none none none none none).state

/-- The catalog of the round-trip scenario: `exampleTransformation` plus one
container "c1" of type DOCKER, image "img", mount "/m", no image site. -/
def exampleCatalog : TransformationCatalog :=
  ((((TransformationCatalog.init "TransformationCatalog").add_transformations
      [.transformation exampleTransformation]).state).add_container
      "c1" (.valid .DOCKER) "img" "/m" none).state

/-! ### Claims -/

/-- C1: the claim says serializing `exampleCatalog` produces the document
`{"pegasus": "5.0", "transformations": [...], "containers": [...]}`. It does
not: the site was created without `arch`, so `TransformationSite.__json__`
reads the never-assigned `self.arch` and raises `AttributeError` (and even
with that fixed, the `containers` comprehension iterates dict keys instead
of `.items()` and would raise as well). This theorem evaluates the code at
the failing input. -/
theorem c1_roundtrip_raises_attribute_error :
    exampleCatalog.json
      = .error (.attributeError "TransformationSite object has no attribute arch") := by
  rfl

/-- C2: the claim says a `TransformationSite` with all optionals unset
serializes with the unset fields omitted. Instead, constructing the site
succeeds but `__json__` raises `AttributeError`, because the constructor
never assigns `self.arch` when the `arch` argument is `None`. This theorem
evaluates the code at the failing input. -/
theorem c2_unset_arch_site_json_raises :
    (TransformationSite.init "local" "/bin/t" (.valid .STAGEABLE)
        none none none none none none
      >>= TransformationSite.json)
      = .error (.attributeError "TransformationSite object has no attribute arch") := by
  rfl

/-- C3: two Transformations with the same (name, namespace, version) compare
equal (`__eq__` yields `True`) and have the same `__hash__`, whatever their
sites, requires, profiles and hooks are; and conversely `__eq__` between two
Transformations yields `True` exactly when their keys coincide. -/
theorem c3_transformation_eq_and_hash_by_key :
    (∀ (n : String) (ns v : Option String) s₁ r₁ p₁ h₁ s₂ r₂ p₂ h₂,
      (Transformation.mk n ns v s₁ r₁ p₁ h₁).eq
          (.transformation (Transformation.mk n ns v s₂ r₂ p₂ h₂)) = .bool true
      ∧ (Transformation.mk n ns v s₁ r₁ p₁ h₁).hashVal
          = (Transformation.mk n ns v s₂ r₂ p₂ h₂).hashVal)
    ∧ ∀ t₁ t₂ : Transformation,
        t₁.eq (.transformation t₂) = .bool true ↔ t₁.key = t₂.key := by
  constructor
  · intro n ns v s₁ r₁ p₁ h₁ s₂ r₂ p₂ h₂
    exact ⟨by simp [Transformation.eq, Transformation.key, Transformation.name,
        Transformation.«namespace», Transformation.version], rfl⟩
  · intro t₁ t₂
    simp [Transformation.eq]

/-- C3 witness: the characterisation applied to two concretely equal keys. -/
theorem c3_transformation_eq_and_hash_by_key_witness :
    (Transformation.init "a" none none).eq
        (.transformation (Transformation.mk "a" none none [] [] [] [])) = .bool true :=
  (c3_transformation_eq_and_hash_by_key.2 _ _).mpr rfl

/-- C5: comparing a Transformation with any non-Transformation value
returns a `ValueError` object (it neither raises nor yields `False`). -/
theorem c5_eq_with_non_transformation_returns_error_object :
    ∀ (t : Transformation) (tag : String),
      t.eq (.nonTransformation tag)
        = .valueErrorObject "must compare with type Transformation" :=
  fun _ _ => rfl

/-! ### Dictionary lemmas -/

theorem dictGet_dictSet_self {κ α : Type} [DecidableEq κ] (d : List (κ × α)) (k : κ) (v : α) :
    dictGet (dictSet d k v) k = some v := by
  induction d with
  | nil => simp [dictSet, dictGet]
  | cons kv rest ih =>
      obtain ⟨k₁, v₁⟩ := kv
      by_cases h : k₁ = k
      · simp [dictSet, dictGet, h]
      · simp [dictSet, dictGet, h, ih]

theorem dictHas_dictSet_self {κ α : Type} [DecidableEq κ] (d : List (κ × α)) (k : κ) (v : α) :
    dictHas (dictSet d k v) k = true := by
  simp [dictHas, dictGet_dictSet_self]

theorem dictHas_dictSet_of {κ α : Type} [DecidableEq κ] (d : List (κ × α)) (k k₁ : κ) (v : α)
    (h : dictHas d k₁ = true) : dictHas (dictSet d k v) k₁ = true := by
  by_cases hk : k₁ = k
  · subst hk; exact dictHas_dictSet_self d k₁ v
  · induction d with
    | nil => simp [dictHas, dictGet] at h
    | cons kv rest ih =>
        obtain ⟨k₂, v₂⟩ := kv
        by_cases h₂ : k₂ = k
        · subst h₂
          simp only [dictHas, dictGet, dictSet, if_pos rfl] at h ⊢
          by_cases h₃ : k₂ = k₁ <;> simp_all [dictHas, dictGet]
        · by_cases h₃ : k₂ = k₁ <;>
            simp_all [dictHas, dictGet, dictSet]

/-! ### add_transformations lemmas -/

/-- A successful batch insertion keeps every key that was already present. -/
theorem add_transformations_ok_preserves (args : List PyVal) :
    ∀ (cat cat₁ : TransformationCatalog) (ret : PyRet TransformationCatalog)
      (t : Transformation),
      cat.add_transformations args = ⟨cat₁, .ok ret⟩ →
      cat.has_transformation t = true → cat₁.has_transformation t = true := by
  induction args with
  | nil =>
      intro cat cat₁ ret t h ht
      simp only [TransformationCatalog.add_transformations, Call.mk.injEq] at h
      exact h.1 ▸ ht
  | cons a rest ih =>
      intro cat cat₁ ret t h ht
      cases a with
      | nonTransformation tag =>
          simp [TransformationCatalog.add_transformations, Call.mk.injEq] at h
      | transformation tr =>
          by_cases hdup : cat.has_transformation tr
          · simp [TransformationCatalog.add_transformations, hdup, Call.mk.injEq] at h
          · simp only [TransformationCatalog.add_transformations, hdup, if_neg,
              Bool.false_eq_true, not_false_eq_true, if_false] at h
            refine ih _ _ _ _ h ?_
            exact dictHas_dictSet_of _ _ _ _ ht

/-- A successful batch insertion inserts every Transformation argument. -/
theorem add_transformations_ok_mem (args : List PyVal) :
    ∀ (cat cat₁ : TransformationCatalog) (ret : PyRet TransformationCatalog),
      cat.add_transformations args = ⟨cat₁, .ok ret⟩ →
      ∀ t : Transformation, PyVal.transformation t ∈ args →
        cat₁.has_transformation t = true := by
  induction args with
  | nil => intro cat cat₁ ret h t hmem; simp at hmem
  | cons a rest ih =>
      intro cat cat₁ ret h t hmem
      cases a with
      | nonTransformation tag =>
          simp [TransformationCatalog.add_transformations, Call.mk.injEq] at h
      | transformation tr =>
          by_cases hdup : cat.has_transformation tr
          · simp [TransformationCatalog.add_transformations, hdup, Call.mk.injEq] at h
          · simp only [TransformationCatalog.add_transformations, hdup, if_neg,
              Bool.false_eq_true, not_false_eq_true, if_false] at h
            rcases List.mem_cons.mp hmem with heq | hmem₁
            · cases heq
              refine add_transformations_ok_preserves rest _ _ _ _ h ?_
              exact dictHas_dictSet_self _ _ _
            · exact ih _ _ _ h t hmem₁

/-- A successful batch insertion followed by more arguments behaves as the
batch on the intermediate catalog. -/
theorem add_transformations_append (args₁ : List PyVal) :
    ∀ (cat cat₁ : TransformationCatalog) (ret : PyRet TransformationCatalog)
      (args₂ : List PyVal),
      cat.add_transformations args₁ = ⟨cat₁, .ok ret⟩ →
      cat.add_transformations (args₁ ++ args₂) = cat₁.add_transformations args₂ := by
  induction args₁ with
  | nil =>
      intro cat cat₁ ret args₂ h
      simp only [TransformationCatalog.add_transformations, Call.mk.injEq] at h
      simp [h.1]
  | cons a rest ih =>
      intro cat cat₁ ret args₂ h
      cases a with
      | nonTransformation tag =>
          simp [TransformationCatalog.add_transformations, Call.mk.injEq] at h
      | transformation tr =>
          by_cases hdup : cat.has_transformation tr
          · simp [TransformationCatalog.add_transformations, hdup, Call.mk.injEq] at h
          · simp only [TransformationCatalog.add_transformations, hdup, if_neg,
              Bool.false_eq_true, not_false_eq_true, if_false] at h ⊢
            exact ih _ _ _ _ h

/-- Whether processing one argument of `add_transformations` against the
given catalog state raises, and which exception: the type check first, then
the duplicate-key check (statement-side description of the loop body). -/
def argError (cat : TransformationCatalog) : PyVal → Option PyError
  | .nonTransformation _ => some (.valueError "input must be of type Transformation")
  | .transformation tr =>
      if cat.has_transformation tr then
        some (.duplicateError "transformation already exists in catalog")
      else none

/-- C4: `add_transformations` is not atomic. If a prefix of the batch
succeeds, producing intermediate state `cat₁`, and the next argument fails
there (duplicate key or wrong type), the whole call raises that exception
while leaving the catalog at `cat₁` — every transformation of the prefix is
already inserted. -/
theorem c4_add_transformations_not_atomic
    (cat cat₁ : TransformationCatalog) (args₁ : List PyVal) (a : PyVal)
    (args₂ : List PyVal) (e : PyError)
    (h₁ : cat.add_transformations args₁ = ⟨cat₁, .ok .pyNone⟩)
    (h₂ : argError cat₁ a = some e) :
    cat.add_transformations (args₁ ++ a :: args₂) = ⟨cat₁, .error e⟩
    ∧ ∀ t : Transformation, PyVal.transformation t ∈ args₁ →
        cat₁.has_transformation t = true := by
  constructor
  · rw [add_transformations_append args₁ cat cat₁ _ (a :: args₂) h₁]
    cases a with
    | nonTransformation tag =>
        simp only [argError, Option.some.injEq] at h₂
        simp [TransformationCatalog.add_transformations, h₂]
    | transformation tr =>
        by_cases hdup : cat₁.has_transformation tr
        · simp only [argError, hdup, if_pos, Option.some.injEq] at h₂
          simp [TransformationCatalog.add_transformations, hdup, h₂]
        · simp [argError, hdup] at h₂
  · exact add_transformations_ok_mem args₁ cat cat₁ _ h₁

/-- C4 witness: inserting "a" then "a" again in one call raises
`DuplicateError` and leaves the first "a" inserted. -/
theorem c4_add_transformations_not_atomic_witness :
    (TransformationCatalog.init "TransformationCatalog").add_transformations
        ([.transformation (Transformation.init "a" none none)]
          ++ [.transformation (Transformation.init "a" none none)])
      = ⟨⟨"TransformationCatalog",
          [(("a", none, none), Transformation.init "a" none none)], []⟩,
         .error (.duplicateError "transformation already exists in catalog")⟩ :=
  (c4_add_transformations_not_atomic
    (TransformationCatalog.init "TransformationCatalog")
    ⟨"TransformationCatalog", [(("a", none, none), Transformation.init "a" none none)], []⟩
    [.transformation (Transformation.init "a" none none)]
    (.transformation (Transformation.init "a" none none)) [] _ rfl rfl).1

/-! ### Small Transformation lemmas -/

theorem setRequires_requires (t : Transformation) (l : List Transformation) :
    (t.setRequires l).requires = l := by
  cases t; rfl

theorem setRequires_name (t : Transformation) (l : List Transformation) :
    (t.setRequires l).name = t.name := by
  cases t; rfl

/-- C6: calling `add_site` with a name that is already a site of the
transformation raises `DuplicateError` and leaves the transformation
exactly as it was: the new attributes are never stored and the original
site mapping is untouched. -/
theorem c6_add_site_duplicate_raises_and_leaves_state
    (t : Transformation) (name pfn : String) (tta : TTypeArg) (arch : Option ArchArg)
    (ostype osrelease osversion glibc container : Option String)
    (h : t.has_site name = true) :
    t.add_site name pfn tta arch ostype osrelease osversion glibc container
      = ⟨t, .error (.duplicateError
          ("Site " ++ name ++ " already exists for transformation " ++ t.name))⟩ := by
  unfold Transformation.has_site at h
  simp [Transformation.add_site, h]

/-- C6 witness: adding "local" a second time, with different attributes,
fails and changes nothing. -/
theorem c6_add_site_duplicate_raises_and_leaves_state_witness :
    exampleTransformation.add_site "local" "/other" (.valid .INSTALLED)
        none (some "linux") none none none none
      = ⟨exampleTransformation, .error (.duplicateError
          ("Site " ++ "local" ++ " already exists for transformation "
            ++ exampleTransformation.name))⟩ :=
  c6_add_site_duplicate_raises_and_leaves_state exampleTransformation
    "local" "/other" (.valid .INSTALLED) none (some "linux") none none none none rfl

/-- C7: with a `transformation_type` that is not a `TransformationType`
member, `TransformationSite.__init__` raises
`ValueError("type must be one of TransformationType")`, and
`Transformation.add_site` (for a not-yet-used site name, so that the
duplicate check passes) raises the same error with the site mapping left
untouched — no object is registered. -/
theorem c7_invalid_type_raises_and_registers_nothing
    (t : Transformation) (name pfn : String) (arch : Option ArchArg)
    (ostype osrelease osversion glibc container : Option String)
    (h : t.has_site name = false) :
    TransformationSite.init name pfn .invalid arch ostype osrelease osversion glibc container
        = .error (.valueError "type must be one of TransformationType")
    ∧ t.add_site name pfn .invalid arch ostype osrelease osversion glibc container
        = ⟨t, .error (.valueError "type must be one of TransformationType")⟩ := by
  refine ⟨rfl, ?_⟩
  unfold Transformation.has_site at h
  simp [Transformation.add_site, h]

/-- C7 witness: an invalid deployment type on a fresh transformation. -/
theorem c7_invalid_type_raises_and_registers_nothing_witness :
    TransformationSite.init "local" "/bin/t" .invalid none none none none none none
        = .error (.valueError "type must be one of TransformationType")
    ∧ (Transformation.init "t" none none).add_site "local" "/bin/t" .invalid
          none none none none none none
        = ⟨Transformation.init "t" none none,
           .error (.valueError "type must be one of TransformationType")⟩ :=
  c7_invalid_type_raises_and_registers_nothing (Transformation.init "t" none none)
    "local" "/bin/t" none none none none none none rfl

/-- C8: once `add_requirement r` has succeeded, a second `add_requirement`
with any transformation carrying the same identity key raises
`DuplicateError`; and `remove_requirement` of a key that was never added
raises `NotFoundError` (leaving the transformation unchanged). -/
theorem c8_requirement_duplicate_and_missing
    (t r r₁ x : Transformation)
    (h₁ : t.has_requirement r = false)
    (h₂ : r₁.key = r.key)
    (h₃ : t.has_requirement x = false) :
    ((t.add_requirement r).state.add_requirement r₁).result
      = .error (.duplicateError
          ("Transformation " ++ t.name ++ " already requires " ++ r₁.name))
    ∧ t.remove_requirement x
      = ⟨t, .error (.notFoundError
          ("Transformation " ++ t.name ++ " does not have requirement " ++ x.str))⟩ := by
  constructor
  · unfold Transformation.has_requirement at h₁
    simp only [Transformation.add_requirement, h₁, Bool.false_eq_true, not_false_eq_true,
      if_neg, if_false]
    simp [setRequires_requires, setRequires_name, List.any_append, h₂]
  · simp [Transformation.remove_requirement, h₃]

/-- C8 witness: require "r" twice (second time via an equal-keyed copy),
and remove a requirement that was never added. -/
theorem c8_requirement_duplicate_and_missing_witness :
    (((Transformation.init "t" none none).add_requirement
          (Transformation.init "r" none none)).state.add_requirement
          (Transformation.mk "r" none none [] [] [] [])).result
      = .error (.duplicateError
          ("Transformation " ++ (Transformation.init "t" none none).name
            ++ " already requires " ++ (Transformation.mk "r" none none [] [] [] []).name))
    ∧ (Transformation.init "t" none none).remove_requirement
          (Transformation.init "x" none none)
      = ⟨Transformation.init "t" none none,
         .error (.notFoundError
          ("Transformation " ++ (Transformation.init "t" none none).name
            ++ " does not have requirement "
            ++ (Transformation.init "x" none none).str))⟩ :=
  c8_requirement_duplicate_and_missing (Transformation.init "t" none none)
    (Transformation.init "r" none none) (Transformation.mk "r" none none [] [] [] [])
    (Transformation.init "x" none none) rfl rfl rfl

/-- C9: serializing a Transformation whose namespace and version are unset
and whose requires, profiles and hooks are empty yields a document with
exactly the keys `name` and `sites` — `namespace`, `version`, `requires`,
`profiles` and `hooks` are omitted entirely (stated for any transformation
whose sites serialize without raising). -/
theorem c9_json_omits_unset_optional_keys
    (t : Transformation) (siteJsons : List JValue)
    (h₁ : t.«namespace» = none) (h₂ : t.version = none)
    (h₃ : t.requires = []) (h₄ : t.profiles = []) (h₅ : t.hooks = [])
    (h₆ : (t.sites.map Prod.snd).mapM TransformationSite.json = .ok siteJsons) :
    t.json = .ok (.obj [("name", .str t.name), ("sites", .arr siteJsons)]) := by
  unfold List.mapM at h₆
  simp [Transformation.json, h₁, h₂, h₃, h₄, h₅, h₆, filter_out_nones, optStr]

/-- C9 witness: a fresh transformation with no sites serializes to exactly
`{"name": ..., "sites": []}`. -/
theorem c9_json_omits_unset_optional_keys_witness :
    (Transformation.init "t" none none).json
      = .ok (.obj [("name", .str (Transformation.init "t" none none).name),
                   ("sites", .arr [])]) :=
  c9_json_omits_unset_optional_keys (Transformation.init "t" none none) []
    rfl rfl rfl rfl rfl rfl

/-- Helper for C10: a successful `add_transformations` call returns `None`. -/
theorem add_transformations_ok_ret (args : List PyVal) :
    ∀ (cat : TransformationCatalog) (r : PyRet TransformationCatalog),
      (cat.add_transformations args).result = .ok r → r = .pyNone := by
  induction args with
  | nil =>
      intro cat r h
      simp [TransformationCatalog.add_transformations] at h
      exact h.symm
  | cons a rest ih =>
      intro cat r h
      cases a with
      | nonTransformation tag =>
          simp [TransformationCatalog.add_transformations] at h
      | transformation tr =>
          by_cases hdup : cat.has_transformation tr
          · simp [TransformationCatalog.add_transformations, hdup] at h
          · simp only [TransformationCatalog.add_transformations, hdup, Bool.false_eq_true,
              not_false_eq_true, if_neg, if_false] at h
            exact ih _ _ h

/-- C10: every mutating operation returns `self` on success — `add_site`,
`remove_site`, `add_site_profile`, `add_requirement`, `remove_requirement`
return the (mutated) Transformation, `add_container` and `remove_container`
return the (mutated) catalog — while a successful `add_transformations`
returns `None`. -/
theorem c10_mutators_return_self_add_transformations_returns_none :
    (∀ (t : Transformation) (name pfn : String) (tt : TransformationType)
        (archv : Option String) (ostype osrelease osversion glibc container : Option String),
      t.has_site name = false →
      (t.add_site name pfn (.valid tt) (archv.map ArchArg.valid)
          ostype osrelease osversion glibc container).result
        = .ok (.obj (t.add_site name pfn (.valid tt) (archv.map ArchArg.valid)
            ostype osrelease osversion glibc container).state))
    ∧ (∀ (t : Transformation) (name : String), t.has_site name = true →
        (t.remove_site name).result = .ok (.obj (t.remove_site name).state))
    ∧ (∀ (t : Transformation) (site_name ns key : String) (value : JValue),
        t.has_site site_name = true →
        (t.add_site_profile site_name ns key value).result
          = .ok (.obj (t.add_site_profile site_name ns key value).state))
    ∧ (∀ (t r : Transformation), t.has_requirement r = false →
        (t.add_requirement r).result = .ok (.obj (t.add_requirement r).state))
    ∧ (∀ (t x : Transformation), t.has_requirement x = true →
        (t.remove_requirement x).result = .ok (.obj (t.remove_requirement x).state))
    ∧ (∀ (cat : TransformationCatalog) (name : String) (ct : ContainerType)
        (image mount : String) (image_site : Option String),
        cat.has_container name = false →
        (cat.add_container name (.valid ct) image mount image_site).result
          = .ok (.obj (cat.add_container name (.valid ct) image mount image_site).state))
    ∧ (∀ (cat : TransformationCatalog) (name : String), cat.has_container name = true →
        (cat.remove_container name).result = .ok (.obj (cat.remove_container name).state))
    ∧ (∀ (cat : TransformationCatalog) (args : List PyVal)
        (r : PyRet TransformationCatalog),
        (cat.add_transformations args).result = .ok r → r = .pyNone) := by
  refine ⟨?_, ?_, ?_, ?_, ?_, ?_, ?_, ?_⟩
  · intro t name pfn tt archv ostype osrelease osversion glibc container h
    unfold Transformation.has_site at h
    cases archv with
    | none => simp [Transformation.add_site, h, TransformationSite.init]
    | some a => simp [Transformation.add_site, h, TransformationSite.init]
  · intro t name h
    unfold Transformation.has_site at h
    simp [Transformation.remove_site, h]
  · intro t site_name ns key value h
    unfold Transformation.has_site at h
    obtain ⟨site, hsite⟩ := Option.isSome_iff_exists.mp h
    simp [Transformation.add_site_profile, hsite]
  · intro t r h
    unfold Transformation.has_requirement at h
    simp [Transformation.add_requirement, h]
  · intro t x h
    simp [Transformation.remove_requirement, h]
  · intro cat name ct image mount image_site h
    unfold TransformationCatalog.has_container at h
    simp [TransformationCatalog.add_container, TransformationCatalog.has_container, h,
      Container.init]
  · intro cat name h
    simp [TransformationCatalog.remove_container, h]
  · exact fun cat args r h => add_transformations_ok_ret args cat r h

/-- C10 witness: each clause applied at a concrete input. -/
theorem c10_mutators_return_self_add_transformations_returns_none_witness :
    ((Transformation.init "t" none none).add_site "local" "/bin/t" (.valid .STAGEABLE)
        ((some "x86_64").map ArchArg.valid) none none none none none).result
      = .ok (.obj ((Transformation.init "t" none none).add_site "local" "/bin/t"
          (.valid .STAGEABLE) ((some "x86_64").map ArchArg.valid)
          none none none none none).state)
    ∧ (exampleTransformation.remove_site "local").result
        = .ok (.obj (exampleTransformation.remove_site "local").state)
    ∧ (exampleTransformation.add_site_profile "local" "env" "PATH" (.str "/bin")).result
        = .ok (.obj (exampleTransformation.add_site_profile "local" "env" "PATH"
            (.str "/bin")).state)
    ∧ ((Transformation.init "t" none none).add_requirement
          (Transformation.init "r" none none)).result
        = .ok (.obj ((Transformation.init "t" none none).add_requirement
            (Transformation.init "r" none none)).state)
    ∧ (((Transformation.init "t" none none).add_requirement
            (Transformation.init "r" none none)).state.remove_requirement
            (Transformation.init "r" none none)).result
        = .ok (.obj (((Transformation.init "t" none none).add_requirement
            (Transformation.init "r" none none)).state.remove_requirement
            (Transformation.init "r" none none)).state)
    ∧ ((TransformationCatalog.init "TransformationCatalog").add_container "c1"
          (.valid .DOCKER) "img" "/m" none).result
        = .ok (.obj ((TransformationCatalog.init "TransformationCatalog").add_container
            "c1" (.valid .DOCKER) "img" "/m" none).state)
    ∧ (exampleCatalog.remove_container "c1").result
        = .ok (.obj (exampleCatalog.remove_container "c1").state)
    ∧ PyRet.pyNone = (PyRet.pyNone : PyRet TransformationCatalog) :=
  ⟨c10_mutators_return_self_add_transformations_returns_none.1
      (Transformation.init "t" none none) "local" "/bin/t" .STAGEABLE
      (some "x86_64") none none none none none rfl,
   c10_mutators_return_self_add_transformations_returns_none.2.1
      exampleTransformation "local" rfl,
   c10_mutators_return_self_add_transformations_returns_none.2.2.1
      exampleTransformation "local" "env" "PATH" (.str "/bin") rfl,
   c10_mutators_return_self_add_transformations_returns_none.2.2.2.1
      (Transformation.init "t" none none) (Transformation.init "r" none none) rfl,
   c10_mutators_return_self_add_transformations_returns_none.2.2.2.2.1
      ((Transformation.init "t" none none).add_requirement
        (Transformation.init "r" none none)).state
      (Transformation.init "r" none none) rfl,
   c10_mutators_return_self_add_transformations_returns_none.2.2.2.2.2.1
      (TransformationCatalog.init "TransformationCatalog") "c1" .DOCKER "img" "/m" none rfl,
   c10_mutators_return_self_add_transformations_returns_none.2.2.2.2.2.2.1
      exampleCatalog "c1" rfl,
   c10_mutators_return_self_add_transformations_returns_none.2.2.2.2.2.2.2
      (TransformationCatalog.init "TransformationCatalog") [] PyRet.pyNone rfl⟩

end Pegasus.DAX4
